import Mathlib

/-!
Shallow embedding of the Grease Pencil UI scripts:
  * scripts/startup/bl_ui/space_gpencil_morph_targets.py (release tree)
  * scripts/startup/bl_ui/space_grease_pencil_shape_keys.py
  * scripts/startup/bl_ui/properties_data_gpencil.py
  * scripts/startup/bl_ui/properties_material_gpencil.py

Each `poll` classmethod becomes a Boolean function on an explicit context
record (Python truthiness of an optional object is `Option.isSome`;
truthiness of a collection is non-emptiness).  Each `draw` / `draw_header` /
`draw_item` method becomes a function computing the flat sequence of widgets
it adds to the layout, in source order.  Layout nesting (rows, columns,
splits) does not reorder widget emission, so a flat list preserves the
sequence of `prop` / `operator` / `label` / ... calls.  An attribute access
on Python `None` (e.g. `ma.grease_pencil` when `ma is None`, or passing
`None` to `layout.prop`) raises at runtime; such draw methods return
`Option`, with `none` marking the raise.

For the two methods named by the frame-effect claim, the embedding is an
explicit statement-level effect trace (`Effect`): widget additions and
layout-attribute writes exactly as they occur in the source, with a separate
constructor reserved for writes to model (scene-graph) fields, which lets the
absence of model writes be stated rather than assumed.  Their widget-list
views are the projections of those traces.
-/

namespace GPencilUI

/-- A value assigned to an operator property or layout attribute. -/
inductive PVal where
  | b (v : Bool) : PVal
  | s (v : String) : PVal
  deriving DecidableEq, Repr

/-- A widget added to a layout.  `data` names the RNA object a `prop` is
bound to, `enabled` is the effective enabled state of the enclosing
sub-layout at emission time (conjunction over ancestors). -/
inductive Widget where
  | prop (data propName text icon : String) (enabled : Bool) : Widget
  | operator (opName text icon : String) (assigns : List (String × PVal)) : Widget
  | label (text icon : String) : Widget
  | separator : Widget
  | menu (menuName : String) : Widget
  | templateList (ulName propName : String) : Widget
  | templateID (data propName : String) : Widget
  | popover (panelName : String) : Widget
  | propDecorator (data propName : String) : Widget
  | templatePalette (targetProperty : String) : Widget
  | templatePreview : Widget
  deriving DecidableEq, Repr

/-- One statement-level effect of a draw method: adding a widget, writing a
layout attribute (e.g. `row.enabled = ...`, `layout.use_property_split = ...`),
or writing a field of a model object (never performed by this code; the
constructor exists so that the frame property is expressible). -/
inductive Effect where
  | addWidget (w : Widget) : Effect
  | setLayoutAttr (attr : String) (value : PVal) : Effect
  | setModelField (objectPath field : String) (value : PVal) : Effect
  deriving DecidableEq, Repr

/-- Whether an effect writes a model (scene-graph) field. -/
def Effect.isModelWrite : Effect → Bool
  | .setModelField _ _ _ => true
  | _ => false

/-- The widgets added by an effect trace, in order. -/
def effectWidgets (es : List Effect) : List Widget :=
  es.filterMap fun e =>
    match e with
    | .addWidget w => some w
    | _ => none

/-! ## Data model records (fields the four files read) -/

/-- A Grease Pencil morph target (fields read by the UI code). -/
structure MorphTarget where
  name : String
  order_nr : Int
  deriving DecidableEq, Repr

/-- A Grease Pencil layer (the only field the translated code branches on). -/
structure GPLayer where
  stroke_dryness : Int
  deriving DecidableEq, Repr

/-- The `gpd.layers` collection with its `active` layer. -/
structure GPLayers where
  items : List GPLayer
  active : Option GPLayer
  deriving DecidableEq, Repr

/-- A (legacy) Grease Pencil data-block: the fields the translated panels
read. -/
structure GreasePencil where
  layers : GPLayers
  watercolor : Bool
  onion_mode : String
  morph_targets : List MorphTarget
  deriving DecidableEq, Repr

/-- `context.object` as seen by the morph-targets file: an object with a
`type` string and Grease Pencil data. -/
structure MTObject where
  type : String
  data : GreasePencil
  deriving DecidableEq, Repr

/-- Context for `space_gpencil_morph_targets.py`. -/
structure MTContext where
  object : Option MTObject
  deriving DecidableEq, Repr

/-- A shape key of a Grease Pencil v3 data-block. -/
structure ShapeKey where
  name : String
  deriving DecidableEq, Repr

/-- A Grease Pencil v3 data-block (fields read by the shape-keys file). -/
structure GreasePencilV3 where
  shape_keys : List ShapeKey
  deriving DecidableEq, Repr

/-- Context for `space_grease_pencil_shape_keys.py` (its `draw` reads
`context.grease_pencil`). -/
structure SKContext where
  grease_pencil : Option GreasePencilV3
  deriving DecidableEq, Repr

/-- Context for `properties_data_gpencil.py` (`context.gpencil`). -/
structure DataContext where
  gpencil : Option GreasePencil
  deriving DecidableEq, Repr

/-! ## space_gpencil_morph_targets.py -/

/-- `GPENCIL_PT_MorphTargetsNPanel.poll`:
`context.object` is not `None`, its `type` is `'GPENCIL'`, and
`len(gpd.morph_targets) > 0`. -/
def GPENCIL_PT_MorphTargetsNPanel_poll (c : MTContext) : Bool :=
  match c.object with
  | none => false
  | some ob =>
    if ob.type ≠ "GPENCIL" then false
    else decide (0 < ob.data.morph_targets.length)

/-- Python `sorted(mt_list, key=lambda el: el.order_nr)`: a stable sort
ascending by `order_nr`. -/
def sortedMorphTargets (mts : List MorphTarget) : List MorphTarget :=
  mts.mergeSort fun a b => decide (a.order_nr ≤ b.order_nr)

/-- The body of the `for mt in sorted(...)` loop of
`GPENCIL_PT_MorphTargetsNPanel.draw`, one iteration per list element:
`sub.prop(mt, "value", text=mt.name)`, then the row attribute writes, then
`row.prop(mt, "mute")`. -/
def morphRowsEffects : List MorphTarget → List Effect
  | [] => []
  | mt :: rest =>
    [.addWidget (.prop "mt" "value" mt.name "" true),
     .setLayoutAttr "use_property_decorate" (.b false),
     .setLayoutAttr "emboss" (.s "NONE"),
     .addWidget (.prop "mt" "mute" "" "" true)] ++ morphRowsEffects rest

/-- Effect trace of `GPENCIL_PT_MorphTargetsNPanel.draw`.  The method reads
`context.object.data`; with no object this access raises (`none`). -/
def GPENCIL_PT_MorphTargetsNPanel_draw_effects (c : MTContext) :
    Option (List Effect) :=
  match c.object with
  | none => none
  | some ob =>
    some ([.setLayoutAttr "use_property_decorate" (.b true),
           .setLayoutAttr "use_property_split" (.b true)]
          ++ morphRowsEffects (sortedMorphTargets ob.data.morph_targets)
          ++ [.addWidget .separator])

/-- Widget-list view of `GPENCIL_PT_MorphTargetsNPanel.draw`. -/
def GPENCIL_PT_MorphTargetsNPanel_draw (c : MTContext) : Option (List Widget) :=
  (GPENCIL_PT_MorphTargetsNPanel_draw_effects c).map effectWidgets

/-- The widgets of one morph-target row, per list element. -/
def morphRowWidgets : List MorphTarget → List Widget
  | [] => []
  | mt :: rest =>
    [.prop "mt" "value" mt.name "" true, .prop "mt" "mute" "" "" true]
      ++ morphRowWidgets rest

/-! ## space_grease_pencil_shape_keys.py -/

/-- The widgets of the `for shape_key in grease_pencil.shape_keys` loop of
`GREASE_PENCIL_PT_ShapeKeysNPanel.draw`, in collection order. -/
def shapeKeyRowWidgets : List ShapeKey → List Widget
  | [] => []
  | sk :: rest =>
    [.prop "shape_key" "value" sk.name "" true,
     .prop "shape_key" "mute" "" "" true] ++ shapeKeyRowWidgets rest

/-- `GREASE_PENCIL_PT_ShapeKeysNPanel.draw`: reads `context.grease_pencil`
and iterates its `shape_keys` directly (no sorting), then a separator. -/
def GREASE_PENCIL_PT_ShapeKeysNPanel_draw (c : SKContext) :
    Option (List Widget) :=
  match c.grease_pencil with
  | none => none
  | some gp => some (shapeKeyRowWidgets gp.shape_keys ++ [.separator])

/-! ## properties_data_gpencil.py -/

/-- `DataButtonsPanel.poll`: `return context.gpencil` (truthiness of the
data-block object: not `None`). -/
def DataButtonsPanel_poll (c : DataContext) : Bool :=
  c.gpencil.isSome

/-- `LayerDataButtonsPanel.poll`: `gpencil and gpencil.layers.active`
(truthy iff the data-block is present and has an active layer). -/
def LayerDataButtonsPanel_poll (c : DataContext) : Bool :=
  match c.gpencil with
  | none => false
  | some gpd => gpd.layers.active.isSome

/-- `DATA_PT_gpencil_layer_masks` inherits `poll` from
`LayerDataButtonsPanel` (first base in its MRO). -/
def DATA_PT_gpencil_layer_masks_poll : DataContext → Bool :=
  LayerDataButtonsPanel_poll

/-- `DATA_PT_gpencil_layer_default_render` inherits `poll` from
`LayerDataButtonsPanel`. -/
def DATA_PT_gpencil_layer_default_render_poll : DataContext → Bool :=
  LayerDataButtonsPanel_poll

/-- `DATA_PT_gpencil_layer_transform` inherits `poll` from
`LayerDataButtonsPanel`. -/
def DATA_PT_gpencil_layer_transform_poll : DataContext → Bool :=
  LayerDataButtonsPanel_poll

/-- `DATA_PT_gpencil_layer_adjustments` inherits `poll` from
`LayerDataButtonsPanel`. -/
def DATA_PT_gpencil_layer_adjustments_poll : DataContext → Bool :=
  LayerDataButtonsPanel_poll

/-- `DATA_PT_gpencil_layer_relations` inherits `poll` from
`LayerDataButtonsPanel`. -/
def DATA_PT_gpencil_layer_relations_poll : DataContext → Bool :=
  LayerDataButtonsPanel_poll

/-- `DATA_PT_gpencil_layer_display` inherits `poll` from
`LayerDataButtonsPanel`. -/
def DATA_PT_gpencil_layer_display_poll : DataContext → Bool :=
  LayerDataButtonsPanel_poll

/-- `DATA_PT_gpencil_layers.draw_layers`: widget sequence, flattened in
source order.  `if gpl:` is the presence of an active layer; enabled flags of
the water-color sliders follow `col.enabled = (gpl.stroke_dryness == 0)`. -/
def DATA_PT_gpencil_layers_draw_layers (gpd : GreasePencil) : List Widget :=
  [.templateList "GPENCIL_UL_layer" "layers",
   .operator "gpencil.layer_add" "" "ADD" [],
   .operator "gpencil.layer_remove" "" "REMOVE" [],
   .separator]
  ++ (match gpd.layers.active with
      | none => []
      | some _ =>
        [.menu "GPENCIL_MT_layer_context_menu"]
        ++ (if 1 < gpd.layers.items.length then
              [.separator,
               .operator "gpencil.layer_move" "" "TRIA_UP" [("type", .s "UP")],
               .operator "gpencil.layer_move" "" "TRIA_DOWN" [("type", .s "DOWN")],
               .separator,
               .operator "gpencil.layer_isolate" "" "RESTRICT_VIEW_ON"
                 [("affect_visibility", .b true)],
               .operator "gpencil.layer_isolate" "" "LOCKED"
                 [("affect_visibility", .b false)]]
            else []))
  ++ (match gpd.layers.active with
      | none => []
      | some gpl =>
        (if !gpd.watercolor then [.prop "gpl" "blend_mode" "Blend" "" true]
         else [])
        ++ (if !gpd.watercolor then
              [.prop "gpl" "opacity" "Opacity" "" true,
               .prop "gpl" "use_lights" "" "" true]
            else [])
        ++ (if gpd.watercolor then
              [.label "" "",
               .prop "gpl" "clear_underlying" "" "" true,
               .prop "gpl" "mix_with_underlying" "" "" true,
               .prop "gpl" "limit_to_underlying" "" "" true,
               .prop "gpl" "gouache_style" "" "" true,
               .prop "gpl" "scale_pigment_flow" "" "" (gpl.stroke_dryness == 0),
               .prop "gpl" "is_wetted" "" "" (gpl.stroke_dryness == 0),
               .separator,
               .prop "gpl" "opacity" "Opacity" "" true,
               .prop "gpl" "watercolor_alpha_variation" "" "" true,
               .prop "gpl" "watercolor_color_variation" "" "" true,
               .prop "gpl" "stroke_wetness" "" "" (gpl.stroke_dryness == 0),
               .prop "gpl" "stroke_dryness" "" "" true]
            else []))

/-- `DATA_PT_gpencil_layers.draw`: with no data-block or an empty `layers`
collection it emits only the "New Layer" operator button, else it defers to
`draw_layers`. -/
def DATA_PT_gpencil_layers_draw (c : DataContext) : List Widget :=
  match c.gpencil with
  | none => [.operator "gpencil.layer_add" "New Layer" "" []]
  | some gpd =>
    if gpd.layers.items.isEmpty then
      [.operator "gpencil.layer_add" "New Layer" "" []]
    else
      DATA_PT_gpencil_layers_draw_layers gpd

/-- The ghost-range pair of `DATA_PT_gpencil_onion_skinning.draw`:
`ghost_before_range` / `ghost_after_range` labelled per `onion_mode`. -/
def onionGhostRangeWidgets (gpd : GreasePencil) : List Widget :=
  if gpd.onion_mode = "ABSOLUTE" then
    [.prop "gpd" "ghost_before_range" "Frames Before" "" true,
     .prop "gpd" "ghost_after_range" "Frames After" "" true]
  else if gpd.onion_mode = "RELATIVE" then
    [.prop "gpd" "ghost_before_range" "Keyframes Before" "" true,
     .prop "gpd" "ghost_after_range" "Keyframes After" "" true]
  else []

/-- `DATA_PT_gpencil_onion_skinning.draw`: reads `context.gpencil` without a
guard (raises when absent), always emits `onion_mode`, `onion_factor`
("Opacity") and `onion_keyframe_type`, then the mode-dependent ghost-range
pair. -/
def DATA_PT_gpencil_onion_skinning_draw (c : DataContext) :
    Option (List Widget) :=
  match c.gpencil with
  | none => none
  | some gpd =>
    some ([.prop "gpd" "onion_mode" "" "" true,
           .prop "gpd" "onion_factor" "Opacity" "" true,
           .prop "gpd" "onion_keyframe_type" "" "" true]
          ++ onionGhostRangeWidgets gpd)

/-! ## properties_material_gpencil.py -/

/-- `material.grease_pencil` settings (`MaterialGPencilStyle`): the fields
the translated code branches on. -/
structure GPMaterialSettings where
  lock : Bool
  ghost : Bool
  mode : String
  stroke_style : String
  fill_style : String
  gradient_type : String
  deriving DecidableEq, Repr

/-- A material; `grease_pencil` is `None` for non-Grease-Pencil materials. -/
structure Material where
  grease_pencil : Option GPMaterialSettings
  deriving DecidableEq, Repr

/-- A material slot as handed to `GPENCIL_UL_matslots.draw_item`. -/
structure MaterialSlot where
  material : Option Material
  deriving DecidableEq, Repr

/-- Context for `properties_material_gpencil.py` (`context.material`). -/
structure MatContext where
  material : Option Material
  deriving DecidableEq, Repr

/-- `GPENCIL_MT_material_context_menu.draw` ignores its context and emits a
fixed sequence of operator buttons. -/
def GPENCIL_MT_material_context_menu_draw (_c : MatContext) : List Widget :=
  [.operator "grease_pencil.material_reveal" "Show All" "RESTRICT_VIEW_OFF" [],
   .operator "grease_pencil.material_hide" "Hide Others" "RESTRICT_VIEW_ON"
     [("invert", .b true)],
   .separator,
   .operator "grease_pencil.material_lock_all" "Lock All" "LOCKED" [],
   .operator "grease_pencil.material_unlock_all" "Unlock All" "UNLOCKED" [],
   .operator "grease_pencil.material_lock_unselected" "Lock Unselected" "" [],
   .operator "grease_pencil.material_lock_unused" "Lock Unused" "" [],
   .separator,
   .operator "grease_pencil.material_copy_to_object"
     "Copy Material to Selected" "" [("only_active", .b true)],
   .operator "grease_pencil.material_copy_to_object"
     "Copy All Materials to Selected" "" [("only_active", .b false)],
   .operator "object.material_slot_remove_unused" "" "" []]

/-- The operator invocations (name and property assignments) of a widget
sequence, in order. -/
def operatorCalls (ws : List Widget) : List (String × List (String × PVal)) :=
  ws.filterMap fun w =>
    match w with
    | .operator opName _ _ assigns => some (opName, assigns)
    | _ => none

/-- Effect trace of `GPENCIL_UL_matslots.draw_item`.  In the
`DEFAULT`/`COMPACT` branch: icon label, then early return when the slot has
no material or the material has no `grease_pencil` settings; otherwise the
name row (enabled iff not locked) and the ghost/hide/lock toggles, the ghost
icon depending on `gpcolor.ghost`. -/
def GPENCIL_UL_matslots_draw_item_effects (layoutType : String)
    (slot : MaterialSlot) (icon : String) : List Effect :=
  if layoutType = "DEFAULT" ∨ layoutType = "COMPACT" then
    [.addWidget (.label "" icon)]
    ++ (match slot.material with
        | none => []
        | some ma =>
          match ma.grease_pencil with
          | none => []
          | some gpcolor =>
            [.setLayoutAttr "enabled" (.b (!gpcolor.lock)),
             .addWidget (.prop "ma" "name" "" "NONE" (!gpcolor.lock)),
             .addWidget (.prop "gpcolor" "ghost" ""
               (if gpcolor.ghost then "ONIONSKIN_OFF" else "ONIONSKIN_ON") true),
             .addWidget (.prop "gpcolor" "hide" "" "" true),
             .addWidget (.prop "gpcolor" "lock" "" "" true)])
  else if layoutType = "GRID" then
    [.setLayoutAttr "alignment" (.s "CENTER"),
     .addWidget (.label "" icon)]
  else []

/-- Widget-list view of `GPENCIL_UL_matslots.draw_item`. -/
def GPENCIL_UL_matslots_draw_item (layoutType : String) (slot : MaterialSlot)
    (icon : String) : List Widget :=
  effectWidgets (GPENCIL_UL_matslots_draw_item_effects layoutType slot icon)

/-- `GPMaterialButtonsPanel.poll`: `ma and ma.grease_pencil`. -/
def GPMaterialButtonsPanel_poll (c : MatContext) : Bool :=
  match c.material with
  | none => false
  | some ma => ma.grease_pencil.isSome

/-- `MATERIAL_PT_gpencil_surface.draw`: guarded early return when the
material or its settings are absent, else the `stroke_wetness` slider. -/
def MATERIAL_PT_gpencil_surface_draw (c : MatContext) : Option (List Widget) :=
  match c.material with
  | none => some []
  | some ma =>
    match ma.grease_pencil with
    | none => some []
    | some _ => some [.prop "gpcolor" "stroke_wetness" "" "" true]

/-- `MATERIAL_PT_gpencil_strokecolor.draw_header`: guarded by
`if ma is not None and ma.grease_pencil is not None`. -/
def MATERIAL_PT_gpencil_strokecolor_draw_header (c : MatContext) :
    Option (List Widget) :=
  match c.material with
  | none => some []
  | some ma =>
    match ma.grease_pencil with
    | none => some []
    | some _ => some [.prop "gpcolor" "show_stroke" "" "" true]

/-- `MATERIAL_PT_gpencil_strokecolor.draw`: guarded body; the texture block
appears when `stroke_style == 'TEXTURE'`, its second column enabled iff not
locked. -/
def MATERIAL_PT_gpencil_strokecolor_draw (c : MatContext) :
    Option (List Widget) :=
  match c.material with
  | none => some []
  | some ma =>
    match ma.grease_pencil with
    | none => some []
    | some gpcolor =>
      some ([.prop "gpcolor" "mode" "" "" true,
             .prop "gpcolor" "stroke_style" "Style" "" true,
             .popover "MATERIAL_PT_gpencil_strokecolor_palette",
             .prop "gpcolor" "color" "" "" true,
             .propDecorator "gpcolor" "color"]
            ++ (if gpcolor.stroke_style = "TEXTURE" then
                  [.separator,
                   .templateID "gpcolor" "stroke_image",
                   .prop "gpcolor" "mix_stroke_factor" "Blend" ""
                     (!gpcolor.lock),
                   .prop "gpcolor" "texture_density" "" "" (!gpcolor.lock),
                   .separator,
                   .prop "gpcolor" "alignment_rotation" "Angle" ""
                     (!gpcolor.lock),
                   .prop "gpcolor" "texture_angle_variation" "" ""
                     (!gpcolor.lock),
                   .prop "gpcolor" "smooth_texture" "" "" (!gpcolor.lock)]
                else []))

/-- `MATERIAL_PT_gpencil_strokecolor_default.draw`: guarded early return;
the column is enabled iff not locked, contents depend on `mode` and
`stroke_style`. -/
def MATERIAL_PT_gpencil_strokecolor_default_draw (c : MatContext) :
    Option (List Widget) :=
  match c.material with
  | none => some []
  | some ma =>
    match ma.grease_pencil with
    | none => some []
    | some gpcolor =>
      some ((if gpcolor.mode = "DOTS" ∨ gpcolor.mode = "BOX" then
               [.prop "gpcolor" "alignment_mode" "" "" (!gpcolor.lock)]
             else [])
            ++ (if gpcolor.stroke_style = "TEXTURE" ∧ gpcolor.mode = "LINE"
                then [.prop "gpcolor" "pixel_size" "UV Factor" ""
                       (!gpcolor.lock)]
                else [])
            ++ [.prop "gpcolor" "use_stroke_holdout" "" "" (!gpcolor.lock)]
            ++ (if gpcolor.mode = "LINE" then
                  [.prop "gpcolor" "use_overlap_strokes" "" "" (!gpcolor.lock)]
                else []))

/-- `MATERIAL_PT_gpencil_fillcolor.draw_header`: unguarded
`gpcolor = ma.grease_pencil` and `prop(gpcolor, "show_fill")` — raises when
the material or its settings are absent. -/
def MATERIAL_PT_gpencil_fillcolor_draw_header (c : MatContext) :
    Option (List Widget) :=
  match c.material with
  | none => none
  | some ma =>
    match ma.grease_pencil with
    | none => none
    | some _ => some [.prop "gpcolor" "show_fill" "" "" true]

/-- `MATERIAL_PT_gpencil_fillcolor.draw`: unguarded access to
`ma.grease_pencil`; contents depend on `fill_style`. -/
def MATERIAL_PT_gpencil_fillcolor_draw (c : MatContext) :
    Option (List Widget) :=
  match c.material with
  | none => none
  | some ma =>
    match ma.grease_pencil with
    | none => none
    | some gpcolor =>
      some ([.prop "gpcolor" "fill_style" "Style" "" true]
            ++ (if gpcolor.fill_style = "GRADIENT" then
                  [.prop "gpcolor" "gradient_type" "" "" true]
                else [])
            ++ (if gpcolor.fill_style = "GRADIENT"
                   ∨ gpcolor.fill_style = "SOLID" then
                  [.popover "MATERIAL_PT_gpencil_fillcolor_palette",
                   .prop "gpcolor" "fill_color" "" "" true,
                   .propDecorator "gpcolor" "fill_color"]
                else [])
            ++ (if gpcolor.fill_style = "GRADIENT" then
                  [.popover "MATERIAL_PT_gpencil_mixcolor_palette",
                   .prop "gpcolor" "mix_color" "" "" true,
                   .propDecorator "gpcolor" "mix_color",
                   .prop "gpcolor" "mix_factor" "Blend" "" true,
                   .prop "gpcolor" "flip" "Flip Colors" "" true]
                else []))

/-- `MATERIAL_PT_gpencil_fillcolor_ondine.draw`: unguarded access to
`ma.grease_pencil`; columns enabled iff not locked, contents depend on
`fill_style` and `gradient_type`. -/
def MATERIAL_PT_gpencil_fillcolor_ondine_draw (c : MatContext) :
    Option (List Widget) :=
  match c.material with
  | none => none
  | some ma =>
    match ma.grease_pencil with
    | none => none
    | some gpcolor =>
      some (if gpcolor.fill_style = "GRADIENT" then
              if gpcolor.gradient_type = "LINEAR" then
                [.prop "gpcolor" "texture_angle" "Rotation" "" (!gpcolor.lock),
                 .prop "gpcolor" "ondine_gradient_offset" "Base Offset" ""
                   (!gpcolor.lock),
                 .prop "gpcolor" "ondine_gradient_offset" "Secondary" ""
                   (!gpcolor.lock)]
              else
                [.prop "gpcolor" "ondine_gradient_offset" "Offset" ""
                   (!gpcolor.lock),
                 .prop "gpcolor" "ondine_gradient_scale" "Scale" ""
                   (!gpcolor.lock)]
            else [])

/-- `MATERIAL_PT_gpencil_fillcolor_default.draw`: guarded early return; the
`texture_angle` row is additionally enabled only for a linear gradient
(effective enabled state is the conjunction with the column's). -/
def MATERIAL_PT_gpencil_fillcolor_default_draw (c : MatContext) :
    Option (List Widget) :=
  match c.material with
  | none => some []
  | some ma =>
    match ma.grease_pencil with
    | none => some []
    | some gpcolor =>
      some (if gpcolor.fill_style = "GRADIENT" then
              [.prop "gpcolor" "texture_offset" "Location" "" (!gpcolor.lock),
               .prop "gpcolor" "texture_angle" "Rotation" ""
                 (!gpcolor.lock && (gpcolor.gradient_type == "LINEAR")),
               .prop "gpcolor" "texture_scale" "Scale" "" (!gpcolor.lock),
               .prop "gpcolor" "use_fill_holdout" "" "" (!gpcolor.lock)]
            else if gpcolor.fill_style = "SOLID" then
              [.prop "gpcolor" "use_fill_holdout" "" "" (!gpcolor.lock)]
            else if gpcolor.fill_style = "TEXTURE" then
              [.popover "MATERIAL_PT_gpencil_fillcolor_palette",
               .prop "gpcolor" "fill_color" "" "" (!gpcolor.lock),
               .propDecorator "gpcolor" "fill_color",
               .prop "gpcolor" "use_fill_holdout" "" "" (!gpcolor.lock),
               .separator,
               .templateID "gpcolor" "fill_image",
               .prop "gpcolor" "mix_factor" "Blend" "" (!gpcolor.lock),
               .prop "gpcolor" "texture_offset" "Location" "" (!gpcolor.lock),
               .prop "gpcolor" "texture_angle" "Rotation" "" (!gpcolor.lock),
               .prop "gpcolor" "texture_scale" "Scale" "" (!gpcolor.lock),
               .prop "gpcolor" "texture_clamp" "Clip Image" "" (!gpcolor.lock)]
            else [])

/-- `MATERIAL_PT_gpencil_preview.draw`: `template_preview(ma)` raises when
`context.material` is `None`. -/
def MATERIAL_PT_gpencil_preview_draw (c : MatContext) : Option (List Widget) :=
  match c.material with
  | none => none
  | some _ => some [.templatePreview]

/-- `MATERIAL_PT_gpencil_settings.draw`: unguarded access to
`ma.grease_pencil`, then the `pass_index` field. -/
def MATERIAL_PT_gpencil_settings_draw (c : MatContext) :
    Option (List Widget) :=
  match c.material with
  | none => none
  | some ma =>
    match ma.grease_pencil with
    | none => none
    | some _ => some [.prop "gpcolor" "pass_index" "" "" true]

/-! ## Claim theorems -/

/-- Claim C1: whenever a Grease Pencil data-block is present but has no
active layer, the `poll` shared (via `LayerDataButtonsPanel`) by the Masks,
Default Render, Transform, Adjustments, Relations and Display layer
sub-panels returns false, hiding those panels. -/
theorem C1_layer_subpanels_hidden_without_active_layer (c : DataContext)
    (gpd : GreasePencil) (hg : c.gpencil = some gpd)
    (ha : gpd.layers.active = none) :
    LayerDataButtonsPanel_poll c = false ∧
    DATA_PT_gpencil_layer_masks_poll c = false ∧
    DATA_PT_gpencil_layer_default_render_poll c = false ∧
    DATA_PT_gpencil_layer_transform_poll c = false ∧
    DATA_PT_gpencil_layer_adjustments_poll c = false ∧
    DATA_PT_gpencil_layer_relations_poll c = false ∧
    DATA_PT_gpencil_layer_display_poll c = false := by
  have hbase : LayerDataButtonsPanel_poll c = false := by
    simp [LayerDataButtonsPanel_poll, hg, ha]
  exact ⟨hbase, hbase, hbase, hbase, hbase, hbase, hbase⟩

/-- Witness for C1: a concrete data-block with no active layer. -/
theorem C1_layer_subpanels_hidden_without_active_layer_witness :
    LayerDataButtonsPanel_poll ⟨some ⟨⟨[], none⟩, false, "", []⟩⟩ = false ∧
    DATA_PT_gpencil_layer_masks_poll ⟨some ⟨⟨[], none⟩, false, "", []⟩⟩
      = false ∧
    DATA_PT_gpencil_layer_default_render_poll
      ⟨some ⟨⟨[], none⟩, false, "", []⟩⟩ = false ∧
    DATA_PT_gpencil_layer_transform_poll ⟨some ⟨⟨[], none⟩, false, "", []⟩⟩
      = false ∧
    DATA_PT_gpencil_layer_adjustments_poll ⟨some ⟨⟨[], none⟩, false, "", []⟩⟩
      = false ∧
    DATA_PT_gpencil_layer_relations_poll ⟨some ⟨⟨[], none⟩, false, "", []⟩⟩
      = false ∧
    DATA_PT_gpencil_layer_display_poll ⟨some ⟨⟨[], none⟩, false, "", []⟩⟩
      = false :=
  C1_layer_subpanels_hidden_without_active_layer
    ⟨some ⟨⟨[], none⟩, false, "", []⟩⟩ ⟨⟨[], none⟩, false, "", []⟩ rfl rfl

/-- Claim C2: `GPENCIL_PT_MorphTargetsNPanel.poll` is true exactly when the
context has an object of type `'GPENCIL'` with a non-empty `morph_targets`
collection; it is false when the object is `None`, of another type, or has
no morph targets. -/
theorem C2_morph_targets_poll_characterisation (c : MTContext) :
    GPENCIL_PT_MorphTargetsNPanel_poll c = true ↔
      ∃ ob, c.object = some ob ∧ ob.type = "GPENCIL" ∧
        ob.data.morph_targets ≠ [] := by
  obtain ⟨o⟩ := c
  cases o with
  | none => simp [GPENCIL_PT_MorphTargetsNPanel_poll]
  | some ob =>
    by_cases ht : ob.type = "GPENCIL" <;>
      simp [GPENCIL_PT_MorphTargetsNPanel_poll, ht, List.length_pos]

/-- Claim C3: `DATA_PT_gpencil_onion_skinning.draw` always emits
`onion_mode`, `onion_factor` and `onion_keyframe_type`; it emits the
`ghost_before_range`/`ghost_after_range` pair labelled "Frames Before"/
"Frames After" iff `onion_mode = 'ABSOLUTE'`, labelled "Keyframes Before"/
"Keyframes After" iff `onion_mode = 'RELATIVE'`, and emits neither
otherwise. -/
theorem C3_onion_skinning_widgets (gpd : GreasePencil) :
    DATA_PT_gpencil_onion_skinning_draw ⟨some gpd⟩ =
      some ([.prop "gpd" "onion_mode" "" "" true,
             .prop "gpd" "onion_factor" "Opacity" "" true,
             .prop "gpd" "onion_keyframe_type" "" "" true]
            ++ onionGhostRangeWidgets gpd) ∧
    (onionGhostRangeWidgets gpd =
        [.prop "gpd" "ghost_before_range" "Frames Before" "" true,
         .prop "gpd" "ghost_after_range" "Frames After" "" true]
      ↔ gpd.onion_mode = "ABSOLUTE") ∧
    (onionGhostRangeWidgets gpd =
        [.prop "gpd" "ghost_before_range" "Keyframes Before" "" true,
         .prop "gpd" "ghost_after_range" "Keyframes After" "" true]
      ↔ gpd.onion_mode = "RELATIVE") ∧
    (onionGhostRangeWidgets gpd = [] ↔
      gpd.onion_mode ≠ "ABSOLUTE" ∧ gpd.onion_mode ≠ "RELATIVE") := by
  refine ⟨rfl, ?_, ?_, ?_⟩
  all_goals
    unfold onionGhostRangeWidgets
    by_cases hA : gpd.onion_mode = "ABSOLUTE"
    · rw [hA]
      decide
    · by_cases hR : gpd.onion_mode = "RELATIVE"
      · rw [hR]
        decide
      · simp [hA, hR]

/-- Claim C4: the cited draw methods are deterministic — equal context
states yield identical widget sequences. -/
theorem C4_draw_deterministic (c d : SKContext) (c2 d2 : DataContext)
    (h1 : c = d) (h2 : c2 = d2) :
    GREASE_PENCIL_PT_ShapeKeysNPanel_draw c =
        GREASE_PENCIL_PT_ShapeKeysNPanel_draw d ∧
    DATA_PT_gpencil_layers_draw c2 = DATA_PT_gpencil_layers_draw d2 :=
  ⟨h1 ▸ rfl, h2 ▸ rfl⟩

/-- Witness for C4 at concrete equal contexts. -/
theorem C4_draw_deterministic_witness :
    GREASE_PENCIL_PT_ShapeKeysNPanel_draw ⟨none⟩ =
        GREASE_PENCIL_PT_ShapeKeysNPanel_draw ⟨none⟩ ∧
    DATA_PT_gpencil_layers_draw ⟨none⟩ = DATA_PT_gpencil_layers_draw ⟨none⟩ :=
  C4_draw_deterministic ⟨none⟩ ⟨none⟩ ⟨none⟩ ⟨none⟩ rfl rfl

/-- Claim C7: the material context menu invokes exactly this operator
sequence, with these property assignments, for every context. -/
theorem C7_material_context_menu_operator_sequence (c : MatContext) :
    operatorCalls (GPENCIL_MT_material_context_menu_draw c) =
      [("grease_pencil.material_reveal", []),
       ("grease_pencil.material_hide", [("invert", .b true)]),
       ("grease_pencil.material_lock_all", []),
       ("grease_pencil.material_unlock_all", []),
       ("grease_pencil.material_lock_unselected", []),
       ("grease_pencil.material_lock_unused", []),
       ("grease_pencil.material_copy_to_object", [("only_active", .b true)]),
       ("grease_pencil.material_copy_to_object", [("only_active", .b false)]),
       ("object.material_slot_remove_unused", [])] := rfl

/-- Claim C10: with a data-block present but an empty `layers` collection,
the Layers panel's poll still succeeds and its draw emits exactly the
"New Layer" add-operator button. -/
theorem C10_layers_panel_with_empty_layers (c : DataContext)
    (gpd : GreasePencil) (hg : c.gpencil = some gpd)
    (hempty : gpd.layers.items = []) :
    DataButtonsPanel_poll c = true ∧
    DATA_PT_gpencil_layers_draw c =
      [.operator "gpencil.layer_add" "New Layer" "" []] := by
  obtain ⟨g⟩ := c
  cases g with
  | none => simp at hg
  | some g' =>
    have : g' = gpd := by simpa using hg
    subst this
    exact ⟨rfl, by simp [DATA_PT_gpencil_layers_draw, hempty]⟩

/-- Witness for C10: a concrete data-block with no layers. -/
theorem C10_layers_panel_with_empty_layers_witness :
    DataButtonsPanel_poll ⟨some ⟨⟨[], none⟩, false, "", []⟩⟩ = true ∧
    DATA_PT_gpencil_layers_draw ⟨some ⟨⟨[], none⟩, false, "", []⟩⟩ =
      [.operator "gpencil.layer_add" "New Layer" "" []] :=
  C10_layers_panel_with_empty_layers ⟨some ⟨⟨[], none⟩, false, "", []⟩⟩
    ⟨⟨[], none⟩, false, "", []⟩ rfl rfl

/-- Helper: a concatenated trace has no model write when neither part has. -/
theorem all_not_model_write_append (a b : List Effect)
    (ha : a.all (fun e => !e.isModelWrite) = true)
    (hb : b.all (fun e => !e.isModelWrite) = true) :
    ((a ++ b).all fun e => !e.isModelWrite) = true := by
  rw [List.all_append, ha, hb]
  rfl

/-- Helper: the morph-target row loop performs no model-field write. -/
theorem morphRowsEffects_no_model_write (l : List MorphTarget) :
    (morphRowsEffects l).all (fun e => !e.isModelWrite) = true := by
  induction l with
  | nil => rfl
  | cons mt rest ih =>
    have h : morphRowsEffects (mt :: rest) =
        [.addWidget (.prop "mt" "value" mt.name "" true),
         .setLayoutAttr "use_property_decorate" (.b false),
         .setLayoutAttr "emboss" (.s "NONE"),
         .addWidget (.prop "mt" "mute" "" "" true)]
          ++ morphRowsEffects rest := rfl
    rw [h]
    exact all_not_model_write_append _ _ rfl ih

/-- Claim C5: the cited draw methods write no model field — every effect in
their traces is a widget addition or a layout-attribute write, never a write
to the data-block, material, or any other scene-graph object. -/
theorem C5_draws_write_no_model_field (c : MTContext) (lt : String)
    (slot : MaterialSlot) (icon : String) :
    ((GPENCIL_PT_MorphTargetsNPanel_draw_effects c).getD []).all
        (fun e => !e.isModelWrite) = true ∧
    (GPENCIL_UL_matslots_draw_item_effects lt slot icon).all
        (fun e => !e.isModelWrite) = true := by
  constructor
  · obtain ⟨o⟩ := c
    cases o with
    | none => rfl
    | some ob =>
      show (([Effect.setLayoutAttr "use_property_decorate" (PVal.b true),
              Effect.setLayoutAttr "use_property_split" (PVal.b true)]
             ++ morphRowsEffects (sortedMorphTargets ob.data.morph_targets)
             ++ [Effect.addWidget Widget.separator]).all
              fun e => !e.isModelWrite) = true
      exact all_not_model_write_append _ _
        (all_not_model_write_append _ _ rfl
          (morphRowsEffects_no_model_write _)) rfl
  · obtain ⟨m⟩ := slot
    unfold GPENCIL_UL_matslots_draw_item_effects
    split
    · cases m with
      | none => simp [Effect.isModelWrite]
      | some ma =>
        obtain ⟨mgp⟩ := ma
        cases mgp <;> simp [Effect.isModelWrite]
    · split <;> simp [Effect.isModelWrite]

/-- Helper: widget projection distributes over trace concatenation. -/
theorem effectWidgets_append (a b : List Effect) :
    effectWidgets (a ++ b) = effectWidgets a ++ effectWidgets b :=
  List.filterMap_append a b _

/-- Helper: the widgets of the morph-target row loop's trace. -/
theorem effectWidgets_morphRowsEffects (l : List MorphTarget) :
    effectWidgets (morphRowsEffects l) = morphRowWidgets l := by
  induction l with
  | nil => rfl
  | cons mt rest ih =>
    simp only [morphRowsEffects, morphRowWidgets]
    rw [effectWidgets_append, ih]
    rfl

/-- Claim C8: the Morph Targets N-panel displays the morph targets sorted
ascending by `order_nr` (a permutation of the collection, whatever its
stored order), while the Shape Keys N-panel displays shape keys in
collection order without sorting. -/
theorem C8_morph_targets_sorted_shape_keys_in_collection_order
    (ob : MTObject) (gp : GreasePencilV3) :
    (∃ l : List MorphTarget,
        l.Perm ob.data.morph_targets ∧
        l.Pairwise (fun a b => a.order_nr ≤ b.order_nr) ∧
        GPENCIL_PT_MorphTargetsNPanel_draw ⟨some ob⟩ =
          some (morphRowWidgets l ++ [.separator])) ∧
    GREASE_PENCIL_PT_ShapeKeysNPanel_draw ⟨some gp⟩ =
      some (shapeKeyRowWidgets gp.shape_keys ++ [.separator]) := by
  constructor
  · refine ⟨sortedMorphTargets ob.data.morph_targets,
      List.mergeSort_perm _ _, ?_, ?_⟩
    · have h := @List.sorted_mergeSort MorphTarget
        (fun a b => decide (a.order_nr ≤ b.order_nr))
        (fun a b c hab hbc => by
          simp only [decide_eq_true_eq] at hab hbc ⊢
          exact le_trans hab hbc)
        (fun a b => by
          simp only [Bool.or_eq_true, decide_eq_true_eq]
          exact le_total a.order_nr b.order_nr)
        ob.data.morph_targets
      exact h.imp fun hab => by simpa using hab
    · show (GPENCIL_PT_MorphTargetsNPanel_draw_effects ⟨some ob⟩).map
          effectWidgets = _
      have h : GPENCIL_PT_MorphTargetsNPanel_draw_effects ⟨some ob⟩ =
          some ([.setLayoutAttr "use_property_decorate" (.b true),
                 .setLayoutAttr "use_property_split" (.b true)]
                ++ morphRowsEffects (sortedMorphTargets ob.data.morph_targets)
                ++ [.addWidget .separator]) := rfl
      rw [h]
      show some _ = _
      rw [effectWidgets_append, effectWidgets_append,
          effectWidgets_morphRowsEffects]
      rfl
  · rfl

/-- Claim C6: under `GPMaterialButtonsPanel.poll` (a material with
`grease_pencil` settings), every attribute access in the material panels'
`draw` / `draw_header` methods succeeds — none of them raises. -/
theorem C6_material_draws_succeed_under_poll (c : MatContext)
    (h : GPMaterialButtonsPanel_poll c = true) :
    (MATERIAL_PT_gpencil_surface_draw c).isSome = true ∧
    (MATERIAL_PT_gpencil_strokecolor_draw_header c).isSome = true ∧
    (MATERIAL_PT_gpencil_strokecolor_draw c).isSome = true ∧
    (MATERIAL_PT_gpencil_strokecolor_default_draw c).isSome = true ∧
    (MATERIAL_PT_gpencil_fillcolor_draw_header c).isSome = true ∧
    (MATERIAL_PT_gpencil_fillcolor_draw c).isSome = true ∧
    (MATERIAL_PT_gpencil_fillcolor_ondine_draw c).isSome = true ∧
    (MATERIAL_PT_gpencil_fillcolor_default_draw c).isSome = true ∧
    (MATERIAL_PT_gpencil_preview_draw c).isSome = true ∧
    (MATERIAL_PT_gpencil_settings_draw c).isSome = true := by
  obtain ⟨m⟩ := c
  cases m with
  | none => simp [GPMaterialButtonsPanel_poll] at h
  | some ma =>
    obtain ⟨mgp⟩ := ma
    cases mgp with
    | none => simp [GPMaterialButtonsPanel_poll] at h
    | some gpcolor =>
      exact ⟨rfl, rfl, rfl, rfl, rfl, rfl, rfl, rfl, rfl, rfl⟩

/-- A concrete Grease Pencil material context for the C6 witness. -/
def matContextW : MatContext :=
  ⟨some ⟨some ⟨false, false, "LINE", "SOLID", "SOLID", "LINEAR"⟩⟩⟩

/-- Witness for C6 at a concrete polled material context. -/
theorem C6_material_draws_succeed_under_poll_witness :
    GPMaterialButtonsPanel_poll matContextW = true ∧
    ((MATERIAL_PT_gpencil_surface_draw matContextW).isSome = true ∧
     (MATERIAL_PT_gpencil_strokecolor_draw_header matContextW).isSome = true ∧
     (MATERIAL_PT_gpencil_strokecolor_draw matContextW).isSome = true ∧
     (MATERIAL_PT_gpencil_strokecolor_default_draw matContextW).isSome
       = true ∧
     (MATERIAL_PT_gpencil_fillcolor_draw_header matContextW).isSome = true ∧
     (MATERIAL_PT_gpencil_fillcolor_draw matContextW).isSome = true ∧
     (MATERIAL_PT_gpencil_fillcolor_ondine_draw matContextW).isSome = true ∧
     (MATERIAL_PT_gpencil_fillcolor_default_draw matContextW).isSome = true ∧
     (MATERIAL_PT_gpencil_preview_draw matContextW).isSome = true ∧
     (MATERIAL_PT_gpencil_settings_draw matContextW).isSome = true) :=
  ⟨rfl, C6_material_draws_succeed_under_poll matContextW rfl⟩

/-- Claim C9: `GPENCIL_UL_matslots.draw_item` in `DEFAULT`/`COMPACT` layout
draws only the icon label when the slot has no material or the material has
no `grease_pencil` settings; otherwise it draws the name field in a row
enabled iff the lock flag is off, followed by the ghost, hide and lock
toggles. -/
theorem C9_matslots_draw_item_shape (lt : String) (slot : MaterialSlot)
    (icon : String) (hlt : lt = "DEFAULT" ∨ lt = "COMPACT") :
    (slot.material.bind Material.grease_pencil = none →
      GPENCIL_UL_matslots_draw_item lt slot icon = [.label "" icon]) ∧
    (∀ gpcolor,
      slot.material.bind Material.grease_pencil = some gpcolor →
      GPENCIL_UL_matslots_draw_item lt slot icon =
        [.label "" icon,
         .prop "ma" "name" "" "NONE" (!gpcolor.lock),
         .prop "gpcolor" "ghost" ""
           (if gpcolor.ghost then "ONIONSKIN_OFF" else "ONIONSKIN_ON") true,
         .prop "gpcolor" "hide" "" "" true,
         .prop "gpcolor" "lock" "" "" true]) := by
  obtain ⟨m⟩ := slot
  constructor
  · intro hnone
    cases m with
    | none =>
      simp [GPENCIL_UL_matslots_draw_item,
            GPENCIL_UL_matslots_draw_item_effects, if_pos hlt, effectWidgets]
    | some ma =>
      obtain ⟨mgp⟩ := ma
      cases mgp with
      | none =>
        simp [GPENCIL_UL_matslots_draw_item,
              GPENCIL_UL_matslots_draw_item_effects, if_pos hlt, effectWidgets]
      | some gpcolor => simp at hnone
  · intro gpcolor hgp
    cases m with
    | none => simp at hgp
    | some ma =>
      obtain ⟨mgp⟩ := ma
      cases mgp with
      | none => simp at hgp
      | some gpcolor2 =>
        have : gpcolor2 = gpcolor := by simpa using hgp
        subst this
        simp [GPENCIL_UL_matslots_draw_item,
              GPENCIL_UL_matslots_draw_item_effects, if_pos hlt, effectWidgets]

/-- A concrete unlocked, non-ghost material slot for the C9 witness. -/
def matSlotW : MaterialSlot :=
  ⟨some ⟨some ⟨false, false, "LINE", "SOLID", "SOLID", "LINEAR"⟩⟩⟩

/-- Witness for C9: the full row at a concrete unlocked slot in `DEFAULT`
layout. -/
theorem C9_matslots_draw_item_shape_witness :
    GPENCIL_UL_matslots_draw_item "DEFAULT" matSlotW "ICON" =
      [.label "" "ICON",
       .prop "ma" "name" "" "NONE" true,
       .prop "gpcolor" "ghost" "" "ONIONSKIN_ON" true,
       .prop "gpcolor" "hide" "" "" true,
       .prop "gpcolor" "lock" "" "" true] := by
  have h := (C9_matslots_draw_item_shape "DEFAULT" matSlotW "ICON"
      (Or.inl rfl)).2 ⟨false, false, "LINE", "SOLID", "SOLID", "LINEAR"⟩ rfl
  simpa using h

end GPencilUI
